import Mathlib

/-!
Shallow embedding of the IMAP migration tool (`imap_migration.py` and
`clear_uids_by_email.py`): the SQLite dedup store, the folder-name decoder,
the per-message retry loop, the per-folder migration loop, the run-level
connect/cleanup logic, and the purge utility.  Network interactions are
modelled by explicit environment parameters (the outcome of each fetch,
append, create, reconnect and logout call); effects are recorded in
explicit traces.
-/

set_option autoImplicit false

namespace ImapMigration

/-- One row of the `migrated_messages` table.  The primary key in
`init_db` is the whole triple `(folder, uid, dest_email)`, so a row *is*
its key. -/
structure Row where
  folder : String
  uid : String
  dest_email : String
deriving DecidableEq, Repr

/-- Model of `init_db`: creates the table when absent; a fresh database holds no
rows. -/
def init_db : List Row := []

/-- Model of `get_migrated_uids`: `SELECT uid FROM migrated_messages WHERE folder = ?
AND dest_email = ?` for the destination user. -/
def get_migrated_uids (db : List Row) (folder dest_user : String) : List String :=
  (db.filter (fun r => r.folder == folder && r.dest_email == dest_user)).map (fun r => r.uid)

/-- Model of `store_migrated_uid`: `INSERT OR IGNORE` of `(folder, uid, dest_email)`;
the insert is dropped when the primary-key triple is already present. -/
def store_migrated_uid (db : List Row) (folder uid dest_user : String) : List Row :=
  let r : Row := ⟨folder, uid, dest_user⟩
  if r ∈ db then db else db ++ [r]

/-- Model of `delete_rows` from `clear_uids_by_email.py`: count the rows whose
`dest_email` matches, and when the count is positive run
`DELETE FROM migrated_messages WHERE dest_email = ?`. -/
def delete_rows (db : List Row) (email : String) : List Row :=
  let count_before := (db.filter (fun r => r.dest_email == email)).length
  if count_before > 0 then db.filter (fun r => !(r.dest_email == email)) else db

/-! ### Folder-name decoding (`decode_folder_name`) -/

/-- Value of one character of the base64 alphabet, `none` for a character
outside the alphabet. -/
def b64charVal (c : Char) : Option Nat :=
  if 'A' ≤ c ∧ c ≤ 'Z' then some (c.toNat - 65)
  else if 'a' ≤ c ∧ c ≤ 'z' then some (c.toNat - 97 + 26)
  else if '0' ≤ c ∧ c ≤ '9' then some (c.toNat - 48 + 52)
  else if c = '+' then some 62
  else if c = '/' then some 63
  else none

/-- The legacy (non-strict) base64 decoding loop of `binascii.a2b_base64`,
as called by `base64.b64decode`: characters outside the alphabet are
discarded, `=` at quad position ≥ 2 that completes a quad ends decoding,
and input ending in the middle of a quad is an error.  `quadPos` is the
position inside the current 4-character group, `left` the pending bits,
`out` the bytes emitted so far (reversed). -/
def a2bBase64 : List Char → Nat → Nat → Nat → List Nat → Option (List Nat)
  | [], quadPos, _pads, _left, out =>
      if quadPos = 0 then some out.reverse else none
  | c :: rest, quadPos, pads, left, out =>
      if c = '=' then
        if 2 ≤ quadPos then
          if quadPos + (pads + 1) = 4 then some out.reverse
          else a2bBase64 rest quadPos (pads + 1) left out
        else a2bBase64 rest quadPos pads left out
      else
        match b64charVal c with
        | none => a2bBase64 rest quadPos pads left out
        | some v =>
          match quadPos with
          | 0 => a2bBase64 rest 1 0 v out
          | 1 => a2bBase64 rest 2 0 (v % 16) ((left * 4 + v / 16) :: out)
          | 2 => a2bBase64 rest 3 0 (v % 4) ((left * 16 + v / 4) :: out)
          | _ => a2bBase64 rest 0 0 0 ((left * 64 + v) :: out)

/-- Model of `base64.b64decode` on a `str`: the argument is first ASCII-encoded
(failing on a non-ASCII character), then handed to the legacy decoder. -/
def b64decode (cs : List Char) : Option (List Nat) :=
  if cs.all (fun c => c.toNat < 128) then a2bBase64 cs 0 0 0 []
  else none

/-- Group a byte list into big-endian 16-bit units; an odd number of
bytes is a decode error, as in `bytes.decode("utf-16be")`. -/
def utf16beUnits : List Nat → Option (List Nat)
  | [] => some []
  | [_] => none
  | b0 :: b1 :: rest => (utf16beUnits rest).map (fun us => (b0 * 256 + b1) :: us)

/-- Combine 16-bit units into characters: a high surrogate must be
followed by a low surrogate (else a decode error), a lone low surrogate
is a decode error, all other units stand for themselves. -/
def pairUnits : List Nat → Option (List Char)
  | [] => some []
  | u :: rest =>
      if 55296 ≤ u ∧ u ≤ 56319 then
        match rest with
        | [] => none
        | v :: rest2 =>
          if 56320 ≤ v ∧ v ≤ 57343 then
            (pairUnits rest2).map
              (fun cs => Char.ofNat (65536 + (u - 55296) * 1024 + (v - 56320)) :: cs)
          else none
      else if 56320 ≤ u ∧ u ≤ 57343 then none
      else (pairUnits rest).map (fun cs => Char.ofNat u :: cs)

/-- Model of `bytes.decode("utf-16be")`. -/
def utf16beDecode (bs : List Nat) : Option (List Char) :=
  (utf16beUnits bs).bind pairUnits

/-- Model of `str.replace` for a single-character pattern, on the character
list. -/
def replaceChar (cs : List Char) (a b : Char) : List Char :=
  cs.map (fun c => if c = a then b else c)

/-- Model of `encoded_name.startswith("&")` followed by `encoded_name[1:]`:
remove the leading `&` when present. -/
def stripAmp : List Char → List Char
  | '&' :: rest => rest
  | cs => cs

/-- Model of `decode_folder_name`, translated statement by statement: strip a
leading `&`, replace `,` by `/` and `-` by `=`, pad to a multiple of 4
with `=`, base64-decode, decode UTF-16 big-endian; on any failure return
the original raw name. -/
def decode_folder_name (encoded_name : String) : String :=
  let raw_encoded_name := encoded_name
  let s1 := stripAmp encoded_name.data
  let s2 := replaceChar s1 ',' '/'
  let s3 := replaceChar s2 '-' '='
  let padding_length := s3.length % 4
  let s4 := if padding_length ≠ 0 then s3 ++ List.replicate (4 - padding_length) '=' else s3
  match b64decode s4 with
  | none => raw_encoded_name
  | some decoded_bytes =>
    match utf16beDecode decoded_bytes with
    | none => raw_encoded_name
    | some cs => String.mk cs

/-- The spec's step 1: strip a leading marker character. -/
def stripMarker (s : String) : String :=
  String.mk (stripAmp s.data)

/-- The spec's step 2: substitute the two reserved punctuation characters
with their base64-alphabet equivalents. -/
def substituteReserved (s : String) : String :=
  String.mk (replaceChar (replaceChar s.data ',' '/') '-' '=')

/-- The spec's step 3: pad to a multiple of 4 characters. -/
def padToMultipleOfFour (s : String) : String :=
  if s.data.length % 4 = 0 then s
  else String.mk (s.data ++ List.replicate (4 - s.data.length % 4) '=')

/-- The decoding pipeline exactly as the spec words it, with the failure
of any step propagated as `none`. -/
def decodeDisplayNameSpec (s : String) : Option String :=
  (b64decode (padToMultipleOfFour (substituteReserved (stripMarker s))).data).bind
    (fun bs => (utf16beDecode bs).map String.mk)

/-! ### Per-message transfer with retries (`migrate_message`) -/

/-- A Python exception as `migrate_message` distinguishes them: a
`socket.error` with its `errno`, or any other exception with its string
form. -/
inductive PyExc where
  | sockErr (errno : Int)
  | exc (msg : String)
deriving DecidableEq, Repr

/-- What one attempt of the `try` block in `migrate_message` does: the
fetch and the append both succeed (so the UID is stored), or the fetch
raises, or the append raises.  The environment (server behaviour) picks
the outcome of each attempt. -/
inductive AttemptOutcome where
  | success
  | failAtFetch (e : PyExc)
  | failAtAppend (e : PyExc)
deriving DecidableEq, Repr

/-- Observable effects of one `migrate_message` call: how many loop
iterations ran, how many times `reconnect` was invoked and what each
invocation returned, the `time.sleep` durations in order, and the UIDs
successfully appended to the destination. -/
structure MsgTrace where
  attemptsMade : Nat
  reconnects : Nat
  reconnectResults : List Bool
  sleeps : List Nat
  appended : List String
deriving DecidableEq, Repr

/-- The empty trace. -/
def MsgTrace.empty : MsgTrace := ⟨0, 0, [], [], []⟩

/-- Is `pat` a prefix of `s`? -/
def subAt : List Char → List Char → Bool
  | [], _ => true
  | _ :: _, [] => false
  | p :: ps, c :: cs => p == c && subAt ps cs

/-- Does `s` contain `pat` as a contiguous subsequence (Python's
`pat in s`)? -/
def containsSub (s pat : List Char) : Bool :=
  match s with
  | [] => pat.isEmpty
  | _ :: rest => subAt pat s || containsSub rest pat

/-- Python's `pat in s` on strings. -/
def strContains (s pat : String) : Bool := containsSub s.data pat.data

/-- The `for attempt in range(retries)` loop of `migrate_message`.
`fuel` is the number of iterations left (`retries - attempt`); falling
off the end of the loop returns Python `None`, modelled as `none`; the
`return True` / `return False` statements are `some true` /
`some false`.  The return value of `self.reconnect(folder)` is discarded
by the source, so the loop only counts the invocations. -/
def migrate_message_go (outcome : Nat → AttemptOutcome) (retries : Nat)
    (folder uid dest_user : String) :
    Nat → Nat → List Row → MsgTrace → Option Bool × List Row × MsgTrace
  | 0, _attempt, db, tr => (none, db, tr)
  | fuel + 1, attempt, db, tr =>
    let tr1 : MsgTrace := { tr with attemptsMade := tr.attemptsMade + 1 }
    match outcome attempt with
    | .success =>
        let db1 := store_migrated_uid db folder uid dest_user
        (some true, db1, { tr1 with appended := tr1.appended ++ [uid] })
    | .failAtFetch e | .failAtAppend e =>
      match e with
      | .sockErr errno =>
          if errno = 54 then
            let tr2 : MsgTrace :=
              { tr1 with reconnects := tr1.reconnects + 1,
                         sleeps := tr1.sleeps ++ [2 ^ attempt] }
            migrate_message_go outcome retries folder uid dest_user fuel (attempt + 1) db tr2
          else (some false, db, tr1)
      | .exc msg =>
          if attempt < retries - 1 then
            let tr2 : MsgTrace :=
              if strContains msg "BAD_LENGTH" || strContains msg "socket error" then
                { tr1 with reconnects := tr1.reconnects + 1 }
              else tr1
            let tr3 : MsgTrace := { tr2 with sleeps := tr2.sleeps ++ [2 ^ attempt] }
            migrate_message_go outcome retries folder uid dest_user fuel (attempt + 1) db tr3
          else (some false, db, tr1)

/-- Model of `migrate_message(num, folder, uid, retries)`: run the retry loop from
attempt 0 with an empty trace, then record what each of the discarded
`reconnect` invocations would have returned (`reconnectOk i` is the
result of the `i`-th invocation; the source never reads it). -/
def migrate_message (outcome : Nat → AttemptOutcome) (reconnectOk : Nat → Bool)
    (retries : Nat) (folder uid dest_user : String) (db : List Row) :
    Option Bool × List Row × MsgTrace :=
  let r := migrate_message_go outcome retries folder uid dest_user retries 0 db MsgTrace.empty
  (r.1, r.2.1, { r.2.2 with reconnectResults := (List.range r.2.2.reconnects).map reconnectOk })

/-! ### Per-folder loop (`migrate_folder`) -/

/-- Observable effects of one `migrate_folder` call: the sequence numbers
whose UID was fetched, the UIDs skipped as already migrated, the UIDs
handed to `migrate_message`, the UIDs whose transfer came back falsy
(logged as failed), and the UIDs successfully appended. -/
structure FolderTrace where
  processed : List Nat
  skipped : List String
  transferred : List String
  failures : List String
  appendedUids : List String
deriving DecidableEq, Repr

/-- The empty folder trace. -/
def FolderTrace.empty : FolderTrace := ⟨[], [], [], [], []⟩

/-- The `for num in message_nums` loop of `migrate_folder`: fetch the
UID of `num`, skip it when it is in the pre-loaded `migrated_uids` set,
otherwise run `migrate_message` and log a failure when its result is
falsy (Python `None` or `False`); the loop always continues with the
next sequence number. -/
def migrate_folder_loop (uidOf : Nat → String) (outcomes : Nat → Nat → AttemptOutcome)
    (reconnectOk : Nat → Nat → Bool) (retries : Nat) (folder dest_user : String)
    (migrated_uids : List String) :
    List Nat → List Row → FolderTrace → List Row × FolderTrace
  | [], db, tr => (db, tr)
  | num :: rest, db, tr =>
    let uid := uidOf num
    let tr1 : FolderTrace := { tr with processed := tr.processed ++ [num] }
    if uid ∈ migrated_uids then
      migrate_folder_loop uidOf outcomes reconnectOk retries folder dest_user migrated_uids
        rest db { tr1 with skipped := tr1.skipped ++ [uid] }
    else
      let r := migrate_message (outcomes num) (reconnectOk num) retries folder uid dest_user db
      let tr2 : FolderTrace :=
        { tr1 with transferred := tr1.transferred ++ [uid],
                   appendedUids := tr1.appendedUids ++ r.2.2.appended }
      let tr3 : FolderTrace :=
        if r.1 = some true then tr2 else { tr2 with failures := tr2.failures ++ [uid] }
      migrate_folder_loop uidOf outcomes reconnectOk retries folder dest_user migrated_uids
        rest r.2.1 tr3

/-- Model of `migrate_folder(folder)`: select source and destination folder, load
the already-migrated UID set once, run the message loop, and return
`True`.  (The surrounding `try` returns `False` only when a protocol
call raises; the modelled environment makes the select/search/UID-fetch
calls total, so that path is not reachable here.) -/
def migrate_folder (uidOf : Nat → String) (outcomes : Nat → Nat → AttemptOutcome)
    (reconnectOk : Nat → Nat → Bool) (retries : Nat) (folder dest_user : String)
    (message_nums : List Nat) (db : List Row) : Bool × List Row × FolderTrace :=
  let migrated_uids := get_migrated_uids db folder dest_user
  let r := migrate_folder_loop uidOf outcomes reconnectOk retries folder dest_user migrated_uids
    message_nums db FolderTrace.empty
  (true, r)

/-! ### Folder creation (`create_folder`) -/

/-- Result of the destination session's `create` call: it returns
normally, or raises (authentication, network, protocol, ...). -/
inductive CreateOutcome where
  | ok
  | raised (e : String)
deriving DecidableEq, Repr

/-- Model of `create_folder(folder)`: call `self.dest.create(folder)` inside a
bare `try`/`except`; any raised exception is caught and logged as the
folder already existing.  The function itself never raises, hence the
`Except.ok` result on every path. -/
def create_folder (folder : String) (res : CreateOutcome) : Except String String :=
  Except.ok
    (match res with
     | .ok => "Created folder: " ++ decode_folder_name folder
     | .raised _ => "Folder already exists: " ++ decode_folder_name folder)

/-! ### Run level (`connect` and `migrate_all`) -/

/-- Environment of one `migrate_all` run: whether establishing and
authenticating each session succeeds, the result of the source's folder
listing (the only body call whose exception escapes to the `finally`
block, since `create_folder` and `migrate_folder` swallow theirs), and
whether each `logout` call in the `finally` block returns normally. -/
structure RunEnv where
  sourceConnOk : Bool
  destConnOk : Bool
  foldersResult : Except String (List String)
  sourceLogoutOk : Bool
  destLogoutOk : Bool
deriving Repr

/-- Result of one `migrate_all` run: the Python return value (`False`
when `connect` fails, `None` on completion) or the exception that
propagates to the caller, and whether each session was logged out. -/
structure RunResult where
  retval : Except String (Option Bool)
  sourceLoggedOut : Bool
  destLoggedOut : Bool
deriving Repr

/-- Model of `connect()`: establish and authenticate the source session, then the
destination session; any exception is caught and turns into a `False`
return.  Yields `(success, sourceSet, destSet)` where the flags record
which `self.source` / `self.dest` fields hold a connected session. -/
def connect (env : RunEnv) : Bool × Bool × Bool :=
  if env.sourceConnOk then
    if env.destConnOk then (true, true, true) else (false, true, false)
  else (false, false, false)

/-- Model of `migrate_all()`: return `False` when `connect` fails (note: without
logging out a source session that was already established); otherwise
run the folder loop in a `try` whose `finally` logs out the source and
then the destination.  A logout that raises propagates out of the
`finally` (replacing any body exception) and, for the source, skips the
destination logout. -/
def migrate_all (env : RunEnv) : RunResult :=
  let c := connect env
  if !c.1 then ⟨Except.ok (some false), false, false⟩
  else
    let bodyRes : Except String Unit :=
      match env.foldersResult with
      | .ok _ => .ok ()
      | .error e => .error e
    if env.sourceLogoutOk then
      if env.destLogoutOk then
        ⟨match bodyRes with
         | .ok _ => .ok none
         | .error e => .error e, true, true⟩
      else ⟨.error "dest logout raised", true, false⟩
    else ⟨.error "source logout raised", false, false⟩

/-! ### Named environments used by concrete statements -/

/-- UID mapping of the spec's concrete scenario: sequence numbers 1, 2, 3
carry durable identifiers "1", "2", "3". -/
def scenarioUidOf : Nat → String := fun n => if n = 1 then "1" else if n = 2 then "2" else "3"

/-- Dedup store of the spec's concrete scenario: ids 1 and 2 of "INBOX"
already migrated to `d@x`. -/
def scenarioDb : List Row := [⟨"INBOX", "1", "d@x"⟩, ⟨"INBOX", "2", "d@x"⟩]

/-- Every fetch and append succeeds. -/
def allSuccess : Nat → Nat → AttemptOutcome := fun _ _ => .success

/-- Every reconnect invocation succeeds. -/
def alwaysReconnectOk : Nat → Nat → Bool := fun _ _ => true

/-- The first two attempts hit a connection reset, the third succeeds. -/
def twoResetsThenSuccess : Nat → AttemptOutcome :=
  fun a => if a < 2 then .failAtFetch (.sockErr 54) else .success

/-- Attempt 0 raises a socket error whose `errno` is not 54 — for
example ECONNRESET on Linux, where connection reset by peer carries
errno 104, or a timeout, whose `errno` is not an integer at all — and
every later attempt would succeed. -/
def reset104ThenSuccess : Nat → AttemptOutcome :=
  fun a => if a = 0 then .failAtFetch (.sockErr 104) else .success

/-- Every reconnect invocation of one message succeeds. -/
def reconnectAlwaysOk : Nat → Bool := fun _ => true

/-- Every reconnect invocation of one message fails (re-authentication
rejected). -/
def reconnectAlwaysFails : Nat → Bool := fun _ => false

/-- Attempt 0 hits a connection reset; with the session never
re-established, every later attempt raises a socket-error exception. -/
def resetThenSocketErrors : Nat → AttemptOutcome :=
  fun a => if a = 0 then .failAtFetch (.sockErr 54) else .failAtAppend (.exc "socket error")

/-- Every attempt of every message hits a connection reset. -/
def allConnectionResets : Nat → Nat → AttemptOutcome := fun _ _ => .failAtFetch (.sockErr 54)

/-- Store of the spec's purge scenario: 2 rows for `a@x`, 3 rows for
`b@y`. -/
def purgeScenarioDb : List Row :=
  [⟨"F", "1", "a@x"⟩, ⟨"F", "2", "a@x"⟩, ⟨"F", "1", "b@y"⟩, ⟨"F", "2", "b@y"⟩, ⟨"F", "3", "b@y"⟩]

/-! ### Lemmas about the retry loop -/

/-- Shifting a backoff-delay list by one attempt. -/
theorem sleeps_shift (attempt n : Nat) :
    (2 : Nat) ^ attempt :: List.map (fun j => 2 ^ (attempt + 1 + j)) (List.range n)
      = List.map (fun j => 2 ^ (attempt + j)) (List.range (n + 1)) := by
  rw [List.range_succ_eq_map, List.map_cons, List.map_map]
  simp only [Nat.add_zero]
  congr 1
  exact List.map_congr_left (fun j _ => by
    simp only [Function.comp_apply]
    congr 1
    omega)

/-- Running the retry loop over attempts that all hit a connection reset
consumes all remaining fuel: every iteration reconnects and sleeps
`2 ^ attempt`, the loop falls off its end with Python `None`, and the
store is untouched. -/
theorem mmGo_all_resets (o : Nat → AttemptOutcome) (retries : Nat) (f u d : String) :
    ∀ (fuel attempt : Nat) (db : List Row) (tr : MsgTrace),
    (∀ j, j < fuel → o (attempt + j) = .failAtFetch (.sockErr 54)) →
    migrate_message_go o retries f u d fuel attempt db tr =
      (none, db,
        ⟨tr.attemptsMade + fuel, tr.reconnects + fuel, tr.reconnectResults,
         tr.sleeps ++ (List.range fuel).map (fun j => 2 ^ (attempt + j)), tr.appended⟩) := by
  intro fuel
  induction fuel with
  | zero => intro attempt db tr _; simp [migrate_message_go]
  | succ n ih =>
    intro attempt db tr h
    have h0 : o attempt = .failAtFetch (.sockErr 54) := by
      have := h 0 (Nat.succ_pos n); simpa using this
    have hrec := ih (attempt + 1) db
      ⟨tr.attemptsMade + 1, tr.reconnects + 1, tr.reconnectResults,
        tr.sleeps ++ [2 ^ attempt], tr.appended⟩
      (fun j hj => by
        have e : attempt + 1 + j = attempt + (j + 1) := by omega
        rw [e]; exact h (j + 1) (by omega))
    simp only [migrate_message_go, h0]
    rw [if_pos trivial]
    rw [hrec]
    dsimp only
    rw [List.append_assoc, List.singleton_append, sleeps_shift]
    have e1 : tr.attemptsMade + 1 + n = tr.attemptsMade + (n + 1) := by omega
    have e2 : tr.reconnects + 1 + n = tr.reconnects + (n + 1) := by omega
    rw [e1, e2]

/-- Running the retry loop over `k` connection-reset attempts followed by
a successful attempt: the loop returns `True`, stores the UID, and has
reconnected `k` times with backoff delays `2 ^ 0, ..., 2 ^ (k - 1)`. -/
theorem mmGo_resets_then_success (o : Nat → AttemptOutcome) (retries : Nat) (f u d : String) :
    ∀ (k fuel attempt : Nat) (db : List Row) (tr : MsgTrace),
    k < fuel →
    (∀ j, j < k → o (attempt + j) = .failAtFetch (.sockErr 54)) →
    o (attempt + k) = .success →
    migrate_message_go o retries f u d fuel attempt db tr =
      (some true, store_migrated_uid db f u d,
        ⟨tr.attemptsMade + (k + 1), tr.reconnects + k, tr.reconnectResults,
         tr.sleeps ++ (List.range k).map (fun j => 2 ^ (attempt + j)), tr.appended ++ [u]⟩) := by
  intro k
  induction k with
  | zero =>
    intro fuel attempt db tr hk _ hsucc
    match fuel, hk with
    | m + 1, _ =>
      have h0 : o attempt = .success := by simpa using hsucc
      simp [migrate_message_go, h0]
  | succ k ih =>
    intro fuel attempt db tr hk hfail hsucc
    match fuel, hk with
    | m + 1, hk =>
      have h0 : o attempt = .failAtFetch (.sockErr 54) := by
        have := hfail 0 (Nat.succ_pos k); simpa using this
      have hrec := ih m (attempt + 1) db
        ⟨tr.attemptsMade + 1, tr.reconnects + 1, tr.reconnectResults,
          tr.sleeps ++ [2 ^ attempt], tr.appended⟩
        (by omega)
        (fun j hj => by
          have e : attempt + 1 + j = attempt + (j + 1) := by omega
          rw [e]; exact hfail (j + 1) (by omega))
        (by
          have e : attempt + 1 + k = attempt + (k + 1) := by omega
          rw [e]; exact hsucc)
      simp only [migrate_message_go, h0]
      rw [if_pos trivial]
      rw [hrec]
      dsimp only
      rw [List.append_assoc, List.singleton_append, sleeps_shift]
      have e1 : tr.attemptsMade + 1 + (k + 1) = tr.attemptsMade + (k + 1 + 1) := by omega
      have e2 : tr.reconnects + 1 + k = tr.reconnects + (k + 1) := by omega
      rw [e1, e2]

/-- The retry loop changes the store only by inserting the message's own
triple, and only on an iteration whose fetch and append both succeeded;
in that case it returns `True`.  When no attempt in range succeeds, the
store comes back untouched. -/
theorem mmGo_store_change (o : Nat → AttemptOutcome) (retries : Nat) (f u d : String) :
    ∀ (fuel attempt : Nat) (db : List Row) (tr : MsgTrace),
    (migrate_message_go o retries f u d fuel attempt db tr).2.1 = db ∨
      ((migrate_message_go o retries f u d fuel attempt db tr).1 = some true ∧
       (migrate_message_go o retries f u d fuel attempt db tr).2.1 = store_migrated_uid db f u d ∧
       ∃ i, attempt ≤ i ∧ i < attempt + fuel ∧ o i = .success) := by
  intro fuel
  induction fuel with
  | zero => intro attempt db tr; left; simp [migrate_message_go]
  | succ n ih =>
    intro attempt db tr
    rcases ho : o attempt with _ | e | e
    · right
      refine ⟨?_, ?_, attempt, Nat.le_refl _, by omega, ho⟩ <;>
        simp [migrate_message_go, ho]
    · match e with
      | .sockErr errno =>
        by_cases h54 : errno = 54
        · subst h54
          have := ih (attempt + 1) db
            ⟨tr.attemptsMade + 1, tr.reconnects + 1, tr.reconnectResults,
              tr.sleeps ++ [2 ^ attempt], tr.appended⟩
          simp only [migrate_message_go, ho]
          rw [if_pos trivial]
          rcases this with hl | ⟨hr1, hr2, i, hi1, hi2, hi3⟩
          · left; exact hl
          · right; exact ⟨hr1, hr2, i, by omega, by omega, hi3⟩
        · left
          simp [migrate_message_go, ho, h54]
      | .exc msg =>
        by_cases hlt : attempt < retries - 1
        · simp only [migrate_message_go, ho]
          rw [if_pos hlt]
          rcases ih (attempt + 1) db _ with hl | ⟨hr1, hr2, i, hi1, hi2, hi3⟩
          · left; exact hl
          · right; exact ⟨hr1, hr2, i, by omega, by omega, hi3⟩
        · left
          simp [migrate_message_go, ho, hlt]
    · match e with
      | .sockErr errno =>
        by_cases h54 : errno = 54
        · subst h54
          have := ih (attempt + 1) db
            ⟨tr.attemptsMade + 1, tr.reconnects + 1, tr.reconnectResults,
              tr.sleeps ++ [2 ^ attempt], tr.appended⟩
          simp only [migrate_message_go, ho]
          rw [if_pos trivial]
          rcases this with hl | ⟨hr1, hr2, i, hi1, hi2, hi3⟩
          · left; exact hl
          · right; exact ⟨hr1, hr2, i, by omega, by omega, hi3⟩
        · left
          simp [migrate_message_go, ho, h54]
      | .exc msg =>
        by_cases hlt : attempt < retries - 1
        · simp only [migrate_message_go, ho]
          rw [if_pos hlt]
          rcases ih (attempt + 1) db _ with hl | ⟨hr1, hr2, i, hi1, hi2, hi3⟩
          · left; exact hl
          · right; exact ⟨hr1, hr2, i, by omega, by omega, hi3⟩
        · left
          simp [migrate_message_go, ho, hlt]

/-! ### Lemmas about the folder loop -/

/-- The folder loop fetches the UID of every sequence number handed to
it, in order: no per-message outcome makes it stop early. -/
theorem folder_loop_processed (uidOf : Nat → String) (outcomes : Nat → Nat → AttemptOutcome)
    (rOk : Nat → Nat → Bool) (retries : Nat) (folder dest : String) (migrated : List String) :
    ∀ (nums : List Nat) (db : List Row) (tr : FolderTrace),
    (migrate_folder_loop uidOf outcomes rOk retries folder dest migrated nums db tr).2.processed
      = tr.processed ++ nums := by
  intro nums
  induction nums with
  | nil => intro db tr; simp [migrate_folder_loop]
  | cons num rest ih =>
    intro db tr
    simp only [migrate_folder_loop]
    split
    · rw [ih]
      simp
    · split
      · rw [ih]; simp
      · rw [ih]; simp

/-- Logged failures are never dropped by later iterations of the folder
loop. -/
theorem folder_loop_failures_mono (uidOf : Nat → String) (outcomes : Nat → Nat → AttemptOutcome)
    (rOk : Nat → Nat → Bool) (retries : Nat) (folder dest : String) (migrated : List String) :
    ∀ (nums : List Nat) (db : List Row) (tr : FolderTrace) (x : String),
    x ∈ tr.failures →
    x ∈ (migrate_folder_loop uidOf outcomes rOk retries folder dest migrated nums db tr).2.failures := by
  intro nums
  induction nums with
  | nil => intro db tr x hx; simpa [migrate_folder_loop] using hx
  | cons num rest ih =>
    intro db tr x hx
    simp only [migrate_folder_loop]
    split
    · exact ih _ _ x hx
    · split
      · exact ih _ _ x hx
      · exact ih _ _ x (List.mem_append_left _ hx)

/-- A sequence number whose UID is not in the pre-loaded migrated set
and whose transfer never returns `True` is logged as a failure by the
folder loop. -/
theorem folder_loop_failure_mem (uidOf : Nat → String) (outcomes : Nat → Nat → AttemptOutcome)
    (rOk : Nat → Nat → Bool) (retries : Nat) (folder dest : String) (migrated : List String) :
    ∀ (nums : List Nat) (db : List Row) (tr : FolderTrace) (m : Nat),
    m ∈ nums →
    uidOf m ∉ migrated →
    (∀ db2 : List Row,
      (migrate_message (outcomes m) (rOk m) retries folder (uidOf m) dest db2).1 ≠ some true) →
    uidOf m ∈ (migrate_folder_loop uidOf outcomes rOk retries folder dest migrated nums db tr).2.failures := by
  intro nums
  induction nums with
  | nil => intro db tr m hm _ _; exact absurd hm (List.not_mem_nil m)
  | cons num rest ih =>
    intro db tr m hm hnot hfail
    rcases List.mem_cons.mp hm with rfl | hm2
    · simp only [migrate_folder_loop]
      rw [if_neg hnot, if_neg (hfail db)]
      apply folder_loop_failures_mono
      exact List.mem_append_right _ (List.mem_singleton.mpr rfl)
    · simp only [migrate_folder_loop]
      split
      · exact ih _ _ m hm2 hnot hfail
      · split
        · exact ih _ _ m hm2 hnot hfail
        · exact ih _ _ m hm2 hnot hfail

/-! ### Claim theorems -/

/-- Claim C1: in `migrate_message` the dedup record is written only after
the append of the message content to the destination has completed
successfully: either the run leaves the store untouched, or some attempt
in range succeeded at both fetch and append, in which case the routine
reports success and the store has exactly the message's own triple
inserted.  In particular, an attempt whose append raises writes no
record. -/
theorem dedup_record_only_after_successful_append
    (o : Nat → AttemptOutcome) (rOk : Nat → Bool) (retries : Nat)
    (f u d : String) (db : List Row) :
    (migrate_message o rOk retries f u d db).2.1 = db ∨
      ((migrate_message o rOk retries f u d db).1 = some true ∧
       (migrate_message o rOk retries f u d db).2.1 = store_migrated_uid db f u d ∧
       ∃ i, i < retries ∧ o i = AttemptOutcome.success) := by
  rcases mmGo_store_change o retries f u d retries 0 db MsgTrace.empty with
    hl | ⟨h1, h2, i, _, hi2, hi3⟩
  · left; simpa [migrate_message] using hl
  · right
    exact ⟨by simpa [migrate_message] using h1, by simpa [migrate_message] using h2,
      i, by omega, hi3⟩

/-- Claim C2: the concrete scenario.  Source folder "INBOX" holds
messages with ids 1, 2, 3; the store already holds ids 1 and 2 for
destination `d@x`.  Running the folder migration appends exactly message
3 (1 and 2 are skipped without transfer) and afterwards the store holds
exactly ids 1, 2, 3 for that folder and destination. -/
theorem concrete_scenario_transfers_only_message_three :
    migrate_folder scenarioUidOf allSuccess alwaysReconnectOk 3 "INBOX" "d@x" [1, 2, 3] scenarioDb
      = (true,
         [⟨"INBOX", "1", "d@x"⟩, ⟨"INBOX", "2", "d@x"⟩, ⟨"INBOX", "3", "d@x"⟩],
         ⟨[1, 2, 3], ["1", "2"], ["3"], [], ["3"]⟩) ∧
    get_migrated_uids
        [⟨"INBOX", "1", "d@x"⟩, ⟨"INBOX", "2", "d@x"⟩, ⟨"INBOX", "3", "d@x"⟩] "INBOX" "d@x"
      = ["1", "2", "3"] := by
  constructor
  · decide
  · decide

/-- Claim C3: the dedup store keeps at most one row per triple, and
recording an already-present triple leaves the store unchanged (the
operation is total, so it never errors). -/
theorem record_is_insert_if_absent (db : List Row) (folder uid dest : String) :
    ((⟨folder, uid, dest⟩ : Row) ∈ db → store_migrated_uid db folder uid dest = db) ∧
    (∀ r0 : Row, db.count r0 ≤ 1 → (store_migrated_uid db folder uid dest).count r0 ≤ 1) := by
  constructor
  · intro h; simp [store_migrated_uid, h]
  · intro r0 hr
    by_cases h : (⟨folder, uid, dest⟩ : Row) ∈ db
    · simpa [store_migrated_uid, h] using hr
    · simp only [store_migrated_uid, if_neg h]
      rw [List.count_append]
      by_cases hre : r0 = (⟨folder, uid, dest⟩ : Row)
      · have hz : db.count r0 = 0 := List.count_eq_zero.mpr (by rw [hre]; exact h)
        have hs : List.count r0 [(⟨folder, uid, dest⟩ : Row)] = 1 := by
          simp [List.count_singleton, hre]
        omega
      · have hs : List.count r0 [(⟨folder, uid, dest⟩ : Row)] = 0 := by
          simp [List.count_singleton, hre]
        omega

/-- Witness for claim C3 at a concrete store. -/
theorem record_is_insert_if_absent_witness :
    store_migrated_uid scenarioDb "INBOX" "1" "d@x" = scenarioDb ∧
    (store_migrated_uid scenarioDb "INBOX" "1" "d@x").count ⟨"INBOX", "1", "d@x"⟩ ≤ 1 :=
  ⟨(record_is_insert_if_absent scenarioDb "INBOX" "1" "d@x").1 (by decide),
   (record_is_insert_if_absent scenarioDb "INBOX" "1" "d@x").2 ⟨"INBOX", "1", "d@x"⟩ (by decide)⟩

/-- Claim C4, counterexample to the claim as stated: a transient network
failure need not carry errno 54 — a timeout has no integer errno at all,
and on Linux a connection reset by peer raises errno 104.  Such a socket
error on the first attempt makes `migrate_message` return `False` at
once: one attempt, no reconnect, no backoff sleep, no success — even
though the next attempt would have succeeded (`k = 1 < retries`).  This
refutes the claim's promise of overall success with one reconnect and
one backoff delay for every transient failure. -/
theorem transient_without_errno54_not_retried :
    (migrate_message reset104ThenSuccess reconnectAlwaysOk 3 "INBOX" "7" "d@x" []).1
        = some false ∧
    (migrate_message reset104ThenSuccess reconnectAlwaysOk 3 "INBOX" "7" "d@x"
        []).2.2.attemptsMade = 1 ∧
    (migrate_message reset104ThenSuccess reconnectAlwaysOk 3 "INBOX" "7" "d@x"
        []).2.2.reconnects = 0 ∧
    (migrate_message reset104ThenSuccess reconnectAlwaysOk 3 "INBOX" "7" "d@x"
        []).2.2.sleeps = [] ∧
    (migrate_message reset104ThenSuccess reconnectAlwaysOk 3 "INBOX" "7" "d@x"
        []).2.1 = [] := by
  refine ⟨by decide, by decide, by decide, by decide, by decide⟩

/-- Claim C4, amended: the only socket error the retry loop treats as a
retryable transient network failure is a connection reset with errno 54.
A transfer that hits such a reset on exactly its first `k` attempts,
`k < retries`, and succeeds on attempt `k + 1`, returns success having
reconnected exactly `k` times and slept exactly the backoff delays
`2 ^ 0, ..., 2 ^ (k - 1)`, which are strictly increasing.  (A socket
error with any other errno fails immediately, with no retry — see the
counterexample.) -/
theorem bounded_retry_success (o : Nat → AttemptOutcome) (rOk : Nat → Bool)
    (retries k : Nat) (f u d : String) (db : List Row)
    (hk : k < retries)
    (hfail : ∀ j, j < k → o j = AttemptOutcome.failAtFetch (PyExc.sockErr 54))
    (hsucc : o k = AttemptOutcome.success) :
    migrate_message o rOk retries f u d db =
      (some true, store_migrated_uid db f u d,
        ⟨k + 1, k, (List.range k).map rOk, (List.range k).map (fun j => 2 ^ j), [u]⟩) ∧
    List.Pairwise (fun a b => a < b)
      ((migrate_message o rOk retries f u d db).2.2.sleeps) := by
  have hgo := mmGo_resets_then_success o retries f u d k retries 0 db MsgTrace.empty hk
    (fun j hj => by simpa using hfail j hj) (by simpa using hsucc)
  have hmain : migrate_message o rOk retries f u d db =
      (some true, store_migrated_uid db f u d,
        ⟨k + 1, k, (List.range k).map rOk, (List.range k).map (fun j => 2 ^ j), [u]⟩) := by
    simp only [migrate_message]
    rw [hgo]
    simp [MsgTrace.empty]
  refine ⟨hmain, ?_⟩
  rw [hmain]
  dsimp only
  exact (List.pairwise_lt_range k).map _ (fun a b hab => Nat.pow_lt_pow_right (by norm_num) hab)

/-- Witness for claim C4 with two connection resets followed by
success. -/
theorem bounded_retry_success_witness :
    migrate_message twoResetsThenSuccess reconnectAlwaysOk 3 "INBOX" "7" "d@x" [] =
      (some true, store_migrated_uid [] "INBOX" "7" "d@x",
        ⟨2 + 1, 2, (List.range 2).map reconnectAlwaysOk,
         (List.range 2).map (fun j => 2 ^ j), ["7"]⟩) ∧
    List.Pairwise (fun a b => a < b)
      ((migrate_message twoResetsThenSuccess reconnectAlwaysOk 3 "INBOX" "7" "d@x" []).2.2.sleeps) :=
  bounded_retry_success twoResetsThenSuccess reconnectAlwaysOk 3 2 "INBOX" "7" "d@x" []
    (by decide) (by decide) (by decide)

/-- Claim C5: a message whose attempts all hit a transient network
failure comes back with a falsy result (`None`), the store untouched;
the folder loop logs the failure and still processes every sequence
number of the folder, and the folder migration itself completes. -/
theorem retry_exhaustion_isolated (uidOf : Nat → String)
    (outcomes : Nat → Nat → AttemptOutcome) (rOk : Nat → Nat → Bool) (retries : Nat)
    (folder dest : String) (nums : List Nat) (db : List Row) (m : Nat)
    (hm : m ∈ nums)
    (hnot : uidOf m ∉ get_migrated_uids db folder dest)
    (htrans : ∀ a, a < retries → outcomes m a = AttemptOutcome.failAtFetch (PyExc.sockErr 54)) :
    (migrate_message (outcomes m) (rOk m) retries folder (uidOf m) dest db).1 = none ∧
    (migrate_message (outcomes m) (rOk m) retries folder (uidOf m) dest db).2.1 = db ∧
    (migrate_folder uidOf outcomes rOk retries folder dest nums db).1 = true ∧
    (migrate_folder uidOf outcomes rOk retries folder dest nums db).2.2.processed = nums ∧
    uidOf m ∈ (migrate_folder uidOf outcomes rOk retries folder dest nums db).2.2.failures := by
  have hmm : ∀ db2 : List Row,
      (migrate_message (outcomes m) (rOk m) retries folder (uidOf m) dest db2).1 = none ∧
      (migrate_message (outcomes m) (rOk m) retries folder (uidOf m) dest db2).2.1 = db2 := by
    intro db2
    have := mmGo_all_resets (outcomes m) retries folder (uidOf m) dest retries 0 db2
      MsgTrace.empty (fun j hj => by simpa using htrans j hj)
    constructor
    · simp [migrate_message, this]
    · simp [migrate_message, this]
  refine ⟨(hmm db).1, (hmm db).2, by simp [migrate_folder], ?_, ?_⟩
  · have := folder_loop_processed uidOf outcomes rOk retries folder dest
      (get_migrated_uids db folder dest) nums db FolderTrace.empty
    simpa [migrate_folder, FolderTrace.empty] using this
  · have := folder_loop_failure_mem uidOf outcomes rOk retries folder dest
      (get_migrated_uids db folder dest) nums db FolderTrace.empty m hm hnot
      (fun db2 => by rw [(hmm db2).1]; simp)
    simpa [migrate_folder, FolderTrace.empty] using this

/-- Witness for claim C5: every attempt of every message resets; message
1 of a two-message folder is logged as failed and message 2 is still
processed. -/
theorem retry_exhaustion_isolated_witness :
    (migrate_message (allConnectionResets 1) (alwaysReconnectOk 1) 3 "INBOX"
        (scenarioUidOf 1) "d@x" []).1 = none ∧
    (migrate_message (allConnectionResets 1) (alwaysReconnectOk 1) 3 "INBOX"
        (scenarioUidOf 1) "d@x" []).2.1 = [] ∧
    (migrate_folder scenarioUidOf allConnectionResets alwaysReconnectOk 3 "INBOX" "d@x"
        [1, 2] []).1 = true ∧
    (migrate_folder scenarioUidOf allConnectionResets alwaysReconnectOk 3 "INBOX" "d@x"
        [1, 2] []).2.2.processed = [1, 2] ∧
    scenarioUidOf 1 ∈ (migrate_folder scenarioUidOf allConnectionResets alwaysReconnectOk 3
        "INBOX" "d@x" [1, 2] []).2.2.failures :=
  retry_exhaustion_isolated scenarioUidOf allConnectionResets alwaysReconnectOk 3
    "INBOX" "d@x" [1, 2] [] 1 (by decide) (by decide) (by decide)

/-- Claim C6, counterexample: attempt 0 hits a connection reset and the
reconnect fails (as does every later reconnect), yet the loop goes on to
make attempts 1 and 2 with the un-reconnected session (three attempts in
all, two reconnect invocations, both returning failure); the overall
failure comes from exhausting the later attempts, not from surfacing the
reconnect failure. -/
theorem reconnect_failure_not_surfaced :
    (migrate_message resetThenSocketErrors reconnectAlwaysFails 3 "INBOX" "7" "d@x"
        []).2.2.reconnectResults = [false, false] ∧
    (migrate_message resetThenSocketErrors reconnectAlwaysFails 3 "INBOX" "7" "d@x"
        []).2.2.attemptsMade = 3 ∧
    (migrate_message resetThenSocketErrors reconnectAlwaysFails 3 "INBOX" "7" "d@x"
        []).1 = some false := by
  refine ⟨by decide, by decide, by decide⟩

/-- Claim C6, amended: `migrate_message` discards the result of every
`reconnect` invocation — its returned result, its store effect, its
attempt count and its sleep schedule are identical whatever the
reconnect outcomes are — and the folder loop processes every sequence
number regardless of per-message outcomes, so a message affected by a
failed reconnect is simply retried and, when its attempts are exhausted,
the caller proceeds to the next message. -/
theorem reconnect_result_discarded (o : Nat → AttemptOutcome) (rOk rOk2 : Nat → Bool)
    (retries : Nat) (f u d : String) (db : List Row) :
    ((migrate_message o rOk retries f u d db).1 = (migrate_message o rOk2 retries f u d db).1 ∧
     (migrate_message o rOk retries f u d db).2.1
       = (migrate_message o rOk2 retries f u d db).2.1 ∧
     (migrate_message o rOk retries f u d db).2.2.attemptsMade
       = (migrate_message o rOk2 retries f u d db).2.2.attemptsMade ∧
     (migrate_message o rOk retries f u d db).2.2.sleeps
       = (migrate_message o rOk2 retries f u d db).2.2.sleeps) ∧
    ∀ (uidOf : Nat → String) (outcomes : Nat → Nat → AttemptOutcome)
      (rOkF : Nat → Nat → Bool) (nums : List Nat) (db2 : List Row),
      (migrate_folder uidOf outcomes rOkF retries f d nums db2).2.2.processed = nums := by
  refine ⟨⟨rfl, rfl, rfl, rfl⟩, ?_⟩
  intro uidOf outcomes rOkF nums db2
  have := folder_loop_processed uidOf outcomes rOkF retries f d
    (get_migrated_uids db2 f d) nums db2 FolderTrace.empty
  simpa [migrate_folder, FolderTrace.empty] using this

/-- Claim C7: `decode_folder_name` computes exactly the spec's pipeline
(strip the marker, substitute the two reserved characters, pad to a
multiple of 4, base64-decode, decode UTF-16 big-endian) and returns the
raw input unchanged whenever any step fails; being a total function it
never raises.  A well-formed fixture decodes to its Unicode display
string and a malformed fixture decodes to itself. -/
theorem folder_name_decoding :
    (∀ s : String, decode_folder_name s = (decodeDisplayNameSpec s).getD s) ∧
    decode_folder_name "&AKk-" = "©" ∧
    decodeDisplayNameSpec "&A" = none ∧
    decode_folder_name "&A" = "&A" := by
  refine ⟨fun s => ?_, by decide, by decide, by decide⟩
  simp only [decode_folder_name, decodeDisplayNameSpec, stripMarker, substituteReserved,
    padToMultipleOfFour]
  by_cases hlen :
      (replaceChar (replaceChar (stripAmp s.data) ',' '/') '-' '=').length % 4 = 0
  · simp only [hlen, ne_eq, not_true_eq_false, if_false, if_true]
    cases hb : b64decode (replaceChar (replaceChar (stripAmp s.data) ',' '/') '-' '=') with
    | none => simp
    | some bs =>
      cases hu : utf16beDecode bs with
      | none => simp [hu]
      | some cs => simp [hu]
  · simp only [hlen, ne_eq, not_false_eq_true, if_true, if_false]
    cases hb : b64decode (replaceChar (replaceChar (stripAmp s.data) ',' '/') '-' '='
        ++ List.replicate
          (4 - (replaceChar (replaceChar (stripAmp s.data) ',' '/') '-' '=').length % 4) '=') with
    | none => simp
    | some bs =>
      cases hu : utf16beDecode bs with
      | none => simp [hu]
      | some cs => simp [hu]

/-- Claim C8, counterexample: both sessions connect, the folder loop
completes, the source logout raises: the exception propagates out of
`migrate_all` to the caller (it is not swallowed) and the destination
session is never logged out. -/
theorem cleanup_counterexample :
    (migrate_all ⟨true, true, Except.ok ["INBOX"], false, true⟩).retval
        = Except.error "source logout raised" ∧
    (migrate_all ⟨true, true, Except.ok ["INBOX"], false, true⟩).destLoggedOut = false := by
  constructor
  · rfl
  · rfl

/-- Claim C8, amended: when both sessions connect and both logouts
return normally, both sessions are logged out on completion (whatever
the folder listing did); a logout failure is not swallowed — when the
source logout raises, the exception propagates to the caller and the
destination logout is skipped, and when the destination logout raises
(the source one having returned normally), that exception propagates to
the caller as well; when session establishment fails, `migrate_all`
returns `False` and no logout is attempted at all. -/
theorem cleanup_behaviour (env : RunEnv) :
    (env.sourceConnOk = true → env.destConnOk = true → env.sourceLogoutOk = true →
      env.destLogoutOk = true →
      (migrate_all env).sourceLoggedOut = true ∧ (migrate_all env).destLoggedOut = true) ∧
    (env.sourceConnOk = true → env.destConnOk = true → env.sourceLogoutOk = false →
      (∃ e, (migrate_all env).retval = Except.error e) ∧
      (migrate_all env).destLoggedOut = false) ∧
    (env.sourceConnOk = true → env.destConnOk = true → env.sourceLogoutOk = true →
      env.destLogoutOk = false →
      (∃ e, (migrate_all env).retval = Except.error e) ∧
      (migrate_all env).sourceLoggedOut = true ∧
      (migrate_all env).destLoggedOut = false) ∧
    ((env.sourceConnOk = false ∨ env.destConnOk = false) →
      (migrate_all env).retval = Except.ok (some false) ∧
      (migrate_all env).sourceLoggedOut = false ∧ (migrate_all env).destLoggedOut = false) := by
  obtain ⟨sc, dc, fr, sl, dl⟩ := env
  refine ⟨?_, ?_, ?_, ?_⟩
  · rintro rfl rfl rfl rfl
    constructor <;> simp [migrate_all, connect]
  · rintro rfl rfl rfl
    exact ⟨⟨"source logout raised", by simp [migrate_all, connect]⟩,
      by simp [migrate_all, connect]⟩
  · rintro rfl rfl rfl rfl
    exact ⟨⟨"dest logout raised", by simp [migrate_all, connect]⟩,
      by simp [migrate_all, connect], by simp [migrate_all, connect]⟩
  · rintro (rfl | rfl)
    · exact ⟨by simp [migrate_all, connect], by simp [migrate_all, connect],
        by simp [migrate_all, connect]⟩
    · refine ⟨?_, ?_, ?_⟩ <;> cases sc <;> simp [migrate_all, connect]

/-- Witness for claim C8 at concrete environments: clean run, failing
source logout, failing destination logout, failing connect. -/
theorem cleanup_behaviour_witness :
    ((migrate_all ⟨true, true, Except.ok [], true, true⟩).sourceLoggedOut = true ∧
     (migrate_all ⟨true, true, Except.ok [], true, true⟩).destLoggedOut = true) ∧
    ((∃ e, (migrate_all ⟨true, true, Except.ok [], false, true⟩).retval = Except.error e) ∧
     (migrate_all ⟨true, true, Except.ok [], false, true⟩).destLoggedOut = false) ∧
    ((∃ e, (migrate_all ⟨true, true, Except.ok [], true, false⟩).retval = Except.error e) ∧
     (migrate_all ⟨true, true, Except.ok [], true, false⟩).sourceLoggedOut = true ∧
     (migrate_all ⟨true, true, Except.ok [], true, false⟩).destLoggedOut = false) ∧
    ((migrate_all ⟨false, true, Except.ok [], true, true⟩).retval = Except.ok (some false) ∧
     (migrate_all ⟨false, true, Except.ok [], true, true⟩).sourceLoggedOut = false ∧
     (migrate_all ⟨false, true, Except.ok [], true, true⟩).destLoggedOut = false) :=
  ⟨(cleanup_behaviour ⟨true, true, Except.ok [], true, true⟩).1 rfl rfl rfl rfl,
   (cleanup_behaviour ⟨true, true, Except.ok [], false, true⟩).2.1 rfl rfl rfl,
   (cleanup_behaviour ⟨true, true, Except.ok [], true, false⟩).2.2.1 rfl rfl rfl rfl,
   (cleanup_behaviour ⟨false, true, Except.ok [], true, true⟩).2.2.2 (Or.inl rfl)⟩

/-- Claim C9: purging by destination account deletes exactly the rows
whose `dest_email` equals the argument and leaves every other row
unchanged; in the concrete scenario, purging `a@x` from a store with 2
rows for `a@x` and 3 rows for `b@y` leaves exactly the 3 rows for
`b@y`. -/
theorem purge_by_destination (db : List Row) (email : String) :
    delete_rows db email = db.filter (fun r => !(r.dest_email == email)) ∧
    delete_rows purgeScenarioDb "a@x"
      = [⟨"F", "1", "b@y"⟩, ⟨"F", "2", "b@y"⟩, ⟨"F", "3", "b@y"⟩] := by
  constructor
  · by_cases h : 0 < (db.filter (fun r => r.dest_email == email)).length
    · simp [delete_rows, h]
    · have hz : (db.filter (fun r => r.dest_email == email)).length = 0 := by omega
      have hnil : db.filter (fun r => r.dest_email == email) = [] := List.length_eq_zero.mp hz
      have hall := List.filter_eq_nil_iff.mp hnil
      simp only [delete_rows, hz]
      rw [if_neg (by omega)]
      symm
      apply List.filter_eq_self.mpr
      intro a ha
      simpa using hall a ha
  · decide

/-- Claim C10: `create_folder` never raises past its own boundary: the
destination's `create` raising for any reason at all is caught, logged
as the folder already existing, and reported to the caller as success
(here: an `Except.ok` result on every path). -/
theorem create_folder_never_raises (folder : String) :
    (∀ e : String, create_folder folder (CreateOutcome.raised e)
        = Except.ok ("Folder already exists: " ++ decode_folder_name folder)) ∧
    (∀ res : CreateOutcome, ∃ msg, create_folder folder res = Except.ok msg) := by
  refine ⟨fun e => rfl, fun res => ?_⟩
  cases res <;> exact ⟨_, rfl⟩

end ImapMigration
